import Mathlib

/-!
Verification of `trellobug.py`, a CLI tool that reads a Trello card,
files a Bugzilla bug from it, and writes the bug URL back onto the card.

The development is a shallow embedding of the script.  Pure string
manipulation (the two regexes, `rstrip`, URL templates) is translated
directly; the effectful parts (`load_config`, the two `Unauthorized`
retry loops, `file_trello_bug`, `main`) are modelled as functions over
explicit oracles describing the environment (user input lines, OAuth
token generation results, Trello responses, the Bugzilla response),
producing an event trace and an outcome.  The Python standard-library
`json` module is modelled by an executable JSON parser over a datatype
`JVal`; fractional/exponent number literals are not modelled (they never
arise in the claims), and `str()`/`repr()` of values is modelled by
`pyStr`/`pyRepr` up to the escaping of quotes inside `repr` of strings.
-/

set_option autoImplicit false

namespace Trellobug

/-- JSON values as produced by `json.loads`: null, booleans, (integer)
numbers, strings, arrays and objects.  Objects keep Python `dict`
semantics: insertion order with later duplicate keys overwriting. -/
inductive JVal where
  | null
  | bool (b : Bool)
  | num (n : Int)
  | str (s : String)
  | arr (xs : List JVal)
  | obj (fields : List (String × JVal))

/-- Python exceptions that the modelled fragments can raise. -/
inductive PyExc where
  | keyError
  | typeError
  | jsonDecodeError
  deriving DecidableEq

/-- Whitespace accepted between JSON tokens. -/
def jsonWs (c : Char) : Bool :=
  c = ' ' || c = '\t' || c = '\n' || c = '\r'

/-- Skip leading JSON whitespace. -/
def skipWs (cs : List Char) : List Char :=
  cs.dropWhile jsonWs

/-- Value of a hexadecimal digit, if the character is one. -/
def hexVal (c : Char) : Option Nat :=
  if '0' ≤ c ∧ c ≤ '9' then some (c.toNat - '0'.toNat)
  else if 'a' ≤ c ∧ c ≤ 'f' then some (c.toNat - 'a'.toNat + 10)
  else if 'A' ≤ c ∧ c ≤ 'F' then some (c.toNat - 'A'.toNat + 10)
  else none

/-- Scan a JSON string body (the opening quote already consumed),
handling the escape sequences of RFC 8259.  Returns the decoded string
and the input remaining after the closing quote. -/
def parseJStr : List Char → List Char → Option (String × List Char)
  | [], _ => none
  | c :: rest, acc =>
    if c = '"' then some (⟨acc.reverse⟩, rest)
    else if c = '\\' then
      match rest with
      | [] => none
      | e :: rest2 =>
        if e = '"' then parseJStr rest2 ('"' :: acc)
        else if e = '\\' then parseJStr rest2 ('\\' :: acc)
        else if e = '/' then parseJStr rest2 ('/' :: acc)
        else if e = 'b' then parseJStr rest2 ('\x08' :: acc)
        else if e = 'f' then parseJStr rest2 ('\x0c' :: acc)
        else if e = 'n' then parseJStr rest2 ('\n' :: acc)
        else if e = 'r' then parseJStr rest2 ('\r' :: acc)
        else if e = 't' then parseJStr rest2 ('\t' :: acc)
        else if e = 'u' then
          match rest2 with
          | a :: b :: c2 :: d :: rest3 =>
            match hexVal a, hexVal b, hexVal c2, hexVal d with
            | some ha, some hb, some hc, some hd =>
              parseJStr rest3 (Char.ofNat (((ha * 16 + hb) * 16 + hc) * 16 + hd) :: acc)
            | _, _, _, _ => none
          | _ => none
        else none
    else if c.toNat < 32 then none
    else parseJStr rest (c :: acc)

/-- Numeric value of a list of decimal digits. -/
def digitsToNat (ds : List Char) : Nat :=
  ds.foldl (fun acc c => acc * 10 + (c.toNat - '0'.toNat)) 0

/-- Parse a JSON integer literal (optional minus sign, no leading
zeros).  Fractional and exponent forms are not modelled and yield
`none`. -/
def parseNumber (cs : List Char) : Option (Int × List Char) :=
  let neg : Bool := match cs with
    | '-' :: _ => true
    | _ => false
  let cs1 := match cs with
    | '-' :: rest => rest
    | _ => cs
  let ds := cs1.takeWhile Char.isDigit
  let rest := cs1.drop ds.length
  match ds with
  | [] => none
  | '0' :: _ :: _ => none
  | _ =>
    match rest with
    | '.' :: _ => none
    | 'e' :: _ => none
    | 'E' :: _ => none
    | _ => some ((if neg then -(digitsToNat ds : Int) else (digitsToNat ds : Int)), rest)

/-- Opening brace character. -/
def lbrace : Char := Char.ofNat 123

/-- Closing brace character. -/
def rbrace : Char := Char.ofNat 125

/-- Update an association list the way assigning to a Python `dict`
does: overwrite in place if the key exists, else append. -/
def setField : List (String × JVal) → String → JVal → List (String × JVal)
  | [], k, v => [(k, v)]
  | (k2, v2) :: rest, k, v =>
    if k2 = k then (k2, v) :: rest else (k2, v2) :: setField rest k v

/-- Look a key up in a parsed JSON object. -/
def lookupField : List (String × JVal) → String → Option JVal
  | [], _ => none
  | (k2, v) :: rest, k => if k2 = k then some v else lookupField rest k

mutual

/-- Parse one JSON value, fuel-indexed.  The fuel bounds nesting depth
and member count; `json_loads` supplies more fuel than any input can
consume. -/
def parseVal : Nat → List Char → Option (JVal × List Char)
  | 0, _ => none
  | fuel + 1, cs =>
    match skipWs cs with
    | 't' :: 'r' :: 'u' :: 'e' :: r => some (JVal.bool true, r)
    | 'f' :: 'a' :: 'l' :: 's' :: 'e' :: r => some (JVal.bool false, r)
    | 'n' :: 'u' :: 'l' :: 'l' :: r => some (JVal.null, r)
    | '"' :: r =>
      match parseJStr r [] with
      | some (s, r2) => some (JVal.str s, r2)
      | none => none
    | c :: r =>
      if c = lbrace then
        match skipWs r with
        | d :: r2 =>
          if d = rbrace then some (JVal.obj [], r2)
          else parseMembers fuel r []
        | [] => none
      else if c = '[' then
        match skipWs r with
        | d :: r2 =>
          if d = ']' then some (JVal.arr [], r2)
          else parseItems fuel r []
        | [] => none
      else
        match parseNumber (c :: r) with
        | some (n, r2) => some (JVal.num n, r2)
        | none => none
    | [] => none

/-- Parse the members of a JSON object (at least one), accumulating
into a Python-dict-like association list. -/
def parseMembers : Nat → List Char → List (String × JVal) → Option (JVal × List Char)
  | 0, _, _ => none
  | fuel + 1, cs, acc =>
    match skipWs cs with
    | '"' :: r =>
      match parseJStr r [] with
      | none => none
      | some (k, r2) =>
        match skipWs r2 with
        | ':' :: r3 =>
          match parseVal fuel r3 with
          | none => none
          | some (v, r4) =>
            match skipWs r4 with
            | ',' :: r5 => parseMembers fuel r5 (setField acc k v)
            | d :: r5 =>
              if d = rbrace then some (JVal.obj (setField acc k v), r5) else none
            | [] => none
        | _ => none
    | _ => none

/-- Parse the items of a JSON array (at least one). -/
def parseItems : Nat → List Char → List JVal → Option (JVal × List Char)
  | 0, _, _ => none
  | fuel + 1, cs, acc =>
    match parseVal fuel cs with
    | none => none
    | some (v, r) =>
      match skipWs r with
      | ',' :: r2 => parseItems fuel r2 (acc ++ [v])
      | ']' :: r2 => some (JVal.arr (acc ++ [v]), r2)
      | _ => none

end

/-- Model of Python `json.loads`: parse a complete JSON document,
requiring only whitespace after the value. -/
def json_loads (s : String) : Option JVal :=
  match parseVal (s.length + 1) s.data with
  | some (v, r) => if (skipWs r).isEmpty then some v else none
  | none => none

mutual

/-- Model of Python `repr()` restricted to JSON values (string escaping
inside `repr` is not modelled). -/
def pyRepr : JVal → String
  | JVal.null => "None"
  | JVal.bool true => "True"
  | JVal.bool false => "False"
  | JVal.num n => toString n
  | JVal.str s => String.singleton (Char.ofNat 39) ++ s ++ String.singleton (Char.ofNat 39)
  | JVal.arr xs => "[" ++ String.intercalate ", " (pyReprList xs) ++ "]"
  | JVal.obj fs =>
    String.singleton lbrace ++ String.intercalate ", " (pyReprFields fs) ++ String.singleton rbrace

/-- Representations of the items of a list. -/
def pyReprList : List JVal → List String
  | [] => []
  | v :: vs => pyRepr v :: pyReprList vs

/-- Representations of the fields of a dict. -/
def pyReprFields : List (String × JVal) → List String
  | [] => []
  | (k, v) :: fs =>
    (String.singleton (Char.ofNat 39) ++ k ++ String.singleton (Char.ofNat 39) ++ ": " ++ pyRepr v)
      :: pyReprFields fs

end

/-- Model of Python `str()` on JSON values, as used by `str.format`. -/
def pyStr : JVal → String
  | JVal.str s => s
  | v => pyRepr v

/-- Model of `get_bugzilla_error` (trellobug.py lines 39-48): decode the
error body; if it fails to parse as JSON return it verbatim; otherwise
subscript the parsed value with the keys `code` and `message`, which
raises `KeyError` on an object lacking one of them and `TypeError` on a
non-object value. -/
def get_bugzilla_error (body : String) : Except PyExc String :=
  match json_loads body with
  | none => Except.ok body
  | some (JVal.obj fs) =>
    match lookupField fs "code" with
    | none => Except.error PyExc.keyError
    | some c =>
      match lookupField fs "message" with
      | none => Except.error PyExc.keyError
      | some m => Except.ok ("Error " ++ pyStr c ++ ": " ++ pyStr m)
  | some _ => Except.error PyExc.typeError

/-- Whitespace class of Python regular expressions (`\s`), ASCII part. -/
def pyIsSpace (c : Char) : Bool :=
  c = ' ' || c = '\t' || c = '\n' || c = '\r' || c = '\x0b' || c = '\x0c'

/-- Model of `story_name_with_points.match` (trellobug.py line 32): the
anchored pattern `\([\d]+\)[\s]*(.*)` applied at the start of the title.
After a parenthesized nonempty run of digits, the greedy `[\s]*`
consumes the whitespace run and the group `(.*)` captures up to (not
including) the next newline, as `.` does not match `\n`.  Returns the
captured group. -/
def story_name_list : List Char → Option String
  | [] => none
  | c :: rest =>
    if c = '(' then
      let ds := rest.takeWhile Char.isDigit
      if ds.isEmpty then none
      else
        match rest.drop ds.length with
        | [] => none
        | c2 :: rest2 =>
          if c2 = ')' then some ⟨(rest2.dropWhile pyIsSpace).takeWhile (fun c3 => c3 ≠ '\n')⟩
          else none
    else none

/-- The match applied to a title string. -/
def story_name_with_points (s : String) : Option String :=
  story_name_list s.data

/-- Title normalization as done inside `file_trello_bug` (lines
109-113): use the captured group if the pattern matches, else the raw
title. -/
def normalize_card_name (s : String) : String :=
  match story_name_with_points s with
  | some g => g
  | none => s

/-- Model of `card_path.match` (line 31): the anchored pattern
`^/c/([^/]+)/` applied to a URL path, returning the captured card id. -/
def card_path_list : List Char → Option String
  | '/' :: 'c' :: '/' :: rest =>
    let id := rest.takeWhile (fun c => c ≠ '/')
    if id.isEmpty then none
    else
      match rest.drop id.length with
      | '/' :: _ => some ⟨id⟩
      | _ => none
  | _ => none

/-- The match applied to a path string. -/
def card_path (p : String) : Option String :=
  card_path_list p.data

/-- Outcome of the `__main__` card-id resolution (lines 262-270): either
`sys.exit(1)` before `main` runs, or run `main` with the resolved card
id. -/
inductive Dispatch where
  | exit1
  | run (card_id : String)
  deriving DecidableEq

/-- Model of the `__main__` block's card-id resolution: if the argument
contains a slash, match `card_path` against the path component of the
parsed URL (`parsed_path` stands for `urlparse(arg).path`, computed by
the standard library); on no match print an error and exit 1, otherwise
take the captured group; an argument without a slash is used verbatim. -/
def main_card_id (arg : String) (parsed_path : String) : Dispatch :=
  if arg.data.contains '/' then
    match card_path parsed_path with
    | none => Dispatch.exit1
    | some id => Dispatch.run id
  else Dispatch.run arg

/-- Default Bugzilla instance (line 21).  Note the trailing slash. -/
def DEFAULT_BUGZILLA_URL : String := "https://bugzilla.mozilla.org/"

/-- Default component (line 22). -/
def DEFAULT_COMPONENT : String := "General"

/-- Default product (line 27). -/
def DEFAULT_PRODUCT : String := "Conduit"

/-- Default version (line 28). -/
def DEFAULT_VERSION : String := "unspecified"

/-- Default config file candidates (lines 23-26); `home` stands for the
expansion of `~`. -/
def DEFAULT_CONFIG_FILES (home : String) : List String :=
  [".trello-to-bug", home ++ "/.trello-to-bug"]

/-- Model of the config-file selection at the top of `main` (lines
214-219).  The Python code is a `for` loop over the candidates with an
`else` clause; since the loop body contains no `break`, the `else`
clause always runs after the loop and overwrites the selection with
`DEFAULT_CONFIG_FILES[0]`. -/
def resolve_config_file (ex : String → Bool) (home : String) (cf : Option String) : String :=
  match cf with
  | some f => f
  | none =>
    let _loop_result : Option String :=
      (DEFAULT_CONFIG_FILES home).foldl (fun acc f => if ex f then some f else acc) none
    (DEFAULT_CONFIG_FILES home).headD ""

/-- Model of Python `rstrip` with a slash argument: drop every trailing
slash. -/
def rstripSlashes (s : String) : String :=
  ⟨(s.data.reverse.dropWhile (fun c => c = '/')).reverse⟩

/-- Section `[bugzilla]` of the config file: `api_key` plus the optional
overrides read with `.get`. -/
structure BzSection where
  api_key : Option String
  url : Option String
  product : Option String
  component : Option String
  version : Option String

/-- Section `[trello]` of the config file. -/
structure TrelloSection where
  api_key : Option String
  api_secret : Option String
  oauth_token : Option String
  oauth_token_secret : Option String

/-- The two sections of the config file; `load_config` adds any missing
section, so both are always present here. -/
structure Config where
  bugzilla : BzSection
  trello : TrelloSection

/-- A Trello card as used by the script: title, description and
canonical short URL. -/
structure Card where
  name : String
  description : String
  short_url : String

/-- Externally visible actions of a run. -/
inductive Event where
  /-- OAuth token pair regenerated (`generate_trello_oauth_tokens`). -/
  | genTokens
  /-- Config file written (`write_config`). -/
  | writeConfig
  /-- One `trello.get_card` attempt; `ok` is false when the service
  raised `Unauthorized`. -/
  | getCard (card_id : String) (ok : Bool)
  /-- A card was successfully fetched. -/
  | cardFetched (c : Card)
  /-- The bug-creation POST with its target URL and JSON payload. -/
  | postBug (url : String) (payload : List (String × JVal))
  /-- Ticket creation returned success: a bug with this URL was filed. -/
  | bugFiled (url : String)
  /-- One `card.set_description` attempt with the new description;
  `ok` is false when the service raised `Unauthorized`. -/
  | setDesc (desc : String) (ok : Bool)

/-- Result of one Trello `get_card` call, as seen by the retry loop. -/
inductive CardResp where
  | unauthorized
  | ok (c : Card)

/-- Result of the Bugzilla POST: an `HTTPError` carrying the error body,
or a 2xx response carrying the response body. -/
inductive BzResult where
  | httpError (body : String)
  | success (body : String)

/-- Result of a loop that waits on the environment: either a value, or
`pending` when the oracle list ran out, i.e. the program is still
waiting on the environment (or the user aborted a prompt). -/
inductive LoopRes (α : Type) where
  | ok (a : α)
  | pending

/-- Final outcome of a modelled run. -/
inductive Outcome where
  | exited (code : Int)
  | crashed (e : PyExc)
  | pending
  deriving DecidableEq

/-- Model of `generate_trello_oauth_tokens` plus the `write_config` done
by its callers is handled at call sites; this consumes one token pair
from the oracle (covering the press-enter prompt and
`create_oauth_token`) and stores it in the `[trello]` section.  An
exhausted oracle models the user aborting at the prompt. -/
def generate_trello_oauth_tokens (c : Config) (tokens : List (String × String)) :
    Option (Config × List (String × String)) :=
  match tokens with
  | [] => none
  | (t, s) :: rest =>
    some ({ c with trello := { c.trello with oauth_token := some t, oauth_token_secret := some s } },
          rest)

/-- First nonempty user-input line, with the remaining lines: the
`while not val: val = input()` loop of `query_option`. -/
def firstNonempty : List String → Option (String × List String)
  | [] => none
  | v :: rest => if v = "" then firstNonempty rest else some (v, rest)

/-- Model of `query_option` (lines 51-69): keep an existing value;
otherwise prompt until a nonempty line arrives.  Returns the value, the
changed flag, and the remaining input; `none` models the user aborting
(or no input ever arriving). -/
def query_option (cur : Option String) (inputs : List String) :
    Option (Option String × Bool × List String) :=
  match cur with
  | some v => some (some v, false, inputs)
  | none =>
    match firstNonempty inputs with
    | none => none
    | some (v, rest) => some (some v, true, rest)

/-- Model of `load_config` (lines 169-210): query the three required
credentials, generate an OAuth token pair when either token option is
missing, and write the config file when anything changed.  Returns the
final config, the emitted events, and the remaining input and token
oracles; `none` models an aborted prompt. -/
def load_config (c0 : Config) (inputs : List String) (tokens : List (String × String)) :
    Option (Config × List Event × List String × List (String × String)) :=
  match query_option c0.bugzilla.api_key inputs with
  | none => none
  | some (bzKey, ch1, in1) =>
    match query_option c0.trello.api_key in1 with
    | none => none
    | some (trKey, ch2, in2) =>
      match query_option c0.trello.api_secret in2 with
      | none => none
      | some (trSec, ch3, in3) =>
        let c1 : Config :=
          { bugzilla := { c0.bugzilla with api_key := bzKey },
            trello := { c0.trello with api_key := trKey, api_secret := trSec } }
        if c1.trello.oauth_token.isNone || c1.trello.oauth_token_secret.isNone then
          match generate_trello_oauth_tokens c1 tokens with
          | none => none
          | some (c2, tk1) => some (c2, [Event.genTokens, Event.writeConfig], in3, tk1)
        else
          if ch1 || ch2 || ch3 then some (c1, [Event.writeConfig], in3, tokens)
          else some (c1, [], in3, tokens)

/-- Model of `get_trello` (lines 92-98): subscripting the four
credential options, raising `KeyError` when one is absent. -/
def get_trello (c : Config) : Except PyExc Unit :=
  match c.trello.api_key, c.trello.api_secret, c.trello.oauth_token, c.trello.oauth_token_secret with
  | some _, some _, some _, some _ => Except.ok ()
  | _, _, _, _ => Except.error PyExc.keyError

/-- Model of the `while not card` fetch loop of `main` (lines 228-233):
each attempt consumes one oracle response; on `Unauthorized` the program
runs `handle_expired_trello_tokens` (regenerate tokens, write the
config, rebuild the client) and retries the same `get_card`. -/
def get_card_loop (card_id : String) :
    List CardResp → List (String × String) →
    List Event × LoopRes Card × List (String × String)
  | [], toks => ([], LoopRes.pending, toks)
  | CardResp.ok c :: _, toks =>
    ([Event.getCard card_id true, Event.cardFetched c], LoopRes.ok c, toks)
  | CardResp.unauthorized :: rest, toks =>
    match toks with
    | [] => ([Event.getCard card_id false], LoopRes.pending, [])
    | _ :: ts =>
      let r := get_card_loop card_id rest ts
      (Event.getCard card_id false :: Event.genTokens :: Event.writeConfig :: r.1, r.2.1, r.2.2)

/-- Model of the `while True` description-update loop of `main` (lines
239-245): attempt `card.set_description` with the new description; on
`Unauthorized` regenerate tokens, write the config and retry; on success
break. -/
def set_desc_loop (desc : String) :
    List Bool → List (String × String) →
    List Event × LoopRes Unit × List (String × String)
  | [], toks => ([], LoopRes.pending, toks)
  | true :: _, toks => ([Event.setDesc desc true], LoopRes.ok (), toks)
  | false :: rest, toks =>
    match toks with
    | [] => ([Event.setDesc desc false], LoopRes.pending, [])
    | _ :: ts =>
      let r := set_desc_loop desc rest ts
      (Event.setDesc desc false :: Event.genTokens :: Event.writeConfig :: r.1, r.2.1, r.2.2)

/-- Result of `file_trello_bug`: the function returns the integer `1`
after a Bugzilla HTTP error, and otherwise a dict holding the new bug's
id, URL and summary. -/
structure Bug where
  id : JVal
  url : String
  summary : String

/-- Return value of `file_trello_bug`: either the error code `1` or the
bug dict. -/
inductive FileBugRet where
  | errcode (n : Int)
  | bug (b : Bug)

/-- The `bug_data` payload built in `file_trello_bug` (lines 119-129),
given the subscripted `api_key` and the normalized card name. -/
def mk_bug_data (bz : BzSection) (key : String) (card : Card) (card_name : String) :
    List (String × JVal) :=
  [("api_key", JVal.str key),
   ("product", JVal.str (bz.product.getD DEFAULT_PRODUCT)),
   ("component", JVal.str (bz.component.getD DEFAULT_COMPONENT)),
   ("version", JVal.str (bz.version.getD DEFAULT_VERSION)),
   ("summary", JVal.str card_name),
   ("description", JVal.str card.description),
   ("url", JVal.str card.short_url),
   ("op_sys", JVal.str "Unspecified"),
   ("platform", JVal.str "Unspecified")]

/-- Response handling of `file_trello_bug` (lines 143-157): either
return the error code `1` after printing the message from
`get_bugzilla_error` (whose exceptions propagate), or parse the 2xx
response body, subscript its `id`, and return the bug dict with the
derived `show_bug.cgi` URL. -/
def file_bug_response (base card_name : String) (resp : BzResult) : Except PyExc FileBugRet :=
  match resp with
  | BzResult.httpError body =>
    match get_bugzilla_error body with
    | Except.error e => Except.error e
    | Except.ok _ => Except.ok (FileBugRet.errcode 1)
  | BzResult.success body =>
    match json_loads body with
    | none => Except.error PyExc.jsonDecodeError
    | some (JVal.obj fs) =>
      match lookupField fs "id" with
      | none => Except.error PyExc.keyError
      | some idv =>
        Except.ok (FileBugRet.bug
          { id := idv,
            url := base ++ "/show_bug.cgi?id=" ++ pyStr idv,
            summary := card_name })
    | some _ => Except.error PyExc.typeError

/-- Model of `file_trello_bug` (lines 108-157): normalize the title,
strip trailing slashes off the Bugzilla base URL, POST the payload to
`{base}/rest/bug` (the single `postBug` event), then handle the
response with `file_bug_response`.  Subscripting `bz_config` with a
missing `api_key` raises `KeyError` before the request is built. -/
def file_trello_bug (bz : BzSection) (card : Card) (resp : BzResult) :
    List Event × Except PyExc FileBugRet :=
  let card_name := normalize_card_name card.name
  let base := rstripSlashes (bz.url.getD DEFAULT_BUGZILLA_URL)
  match bz.api_key with
  | none => ([], Except.error PyExc.keyError)
  | some key =>
    ([Event.postBug (base ++ "/rest/bug") (mk_bug_data bz key card card_name)],
     file_bug_response base card_name resp)

/-- Environment of one run: filesystem and home directory (for the
config-file selection), the config file contents, the user-input and
token-generation oracles, and the responses of the two services. -/
structure World where
  ex : String → Bool
  home : String
  cfg0 : Config
  inputs : List String
  tokens : List (String × String)
  cardResps : List CardResp
  bzResp : BzResult
  setResps : List Bool

/-- Model of `main` (lines 213-248): select the config file, load the
config (prompting as needed), build the Trello client, fetch the card in
the re-auth retry loop, file the bug, then prepend the bug URL to the
card description in the second re-auth retry loop, and return 0.  When
`file_trello_bug` returned the error code `1`, the subsequent
`bug['id']` subscripts an integer and raises `TypeError`. -/
def main (config_file : Option String) (card_id : String) (w : World) :
    List Event × Outcome :=
  let _cf := resolve_config_file w.ex w.home config_file
  match load_config w.cfg0 w.inputs w.tokens with
  | none => ([], Outcome.pending)
  | some (cfg, loadEvs, _inLeft, tk1) =>
    match get_trello cfg with
    | Except.error e => (loadEvs, Outcome.crashed e)
    | Except.ok _ =>
      let fetch := get_card_loop card_id w.cardResps tk1
      match fetch.2.1 with
      | LoopRes.pending => (loadEvs ++ fetch.1, Outcome.pending)
      | LoopRes.ok card =>
        let filed := file_trello_bug cfg.bugzilla card w.bzResp
        match filed.2 with
        | Except.error e => (loadEvs ++ fetch.1 ++ filed.1, Outcome.crashed e)
        | Except.ok (FileBugRet.errcode _) =>
          (loadEvs ++ fetch.1 ++ filed.1, Outcome.crashed PyExc.typeError)
        | Except.ok (FileBugRet.bug b) =>
          let desc := b.url ++ "\n\n" ++ card.description
          let upd := set_desc_loop desc w.setResps fetch.2.2
          match upd.2.1 with
          | LoopRes.pending =>
            (loadEvs ++ fetch.1 ++ filed.1 ++ [Event.bugFiled b.url] ++ upd.1, Outcome.pending)
          | LoopRes.ok _ =>
            (loadEvs ++ fetch.1 ++ filed.1 ++ [Event.bugFiled b.url] ++ upd.1, Outcome.exited 0)

/-- Is this event a `set_description` attempt (successful or not)? -/
def isSetDescAttempt : Event → Bool
  | Event.setDesc _ _ => true
  | _ => false

/-- Is this event a successful `set_description`? -/
def isSetDescOk : Event → Bool
  | Event.setDesc _ true => true
  | _ => false

/-- Is this event the bug-filed marker? -/
def isBugFiled : Event → Bool
  | Event.bugFiled _ => true
  | _ => false

/-- Descriptions successfully written to the card, in order. -/
def setDescWrites (tr : List Event) : List String :=
  tr.filterMap fun e =>
    match e with
    | Event.setDesc d true => some d
    | _ => none

/-- Condition under which the `story_name_with_points` pattern matches:
the title starts with a parenthesized nonempty digit run (whitespace
after it optional). -/
def hasPointsMarker_list : List Char → Bool
  | [] => false
  | c :: rest =>
    if c = '(' then
      let ds := rest.takeWhile Char.isDigit
      if ds.isEmpty then false
      else
        match rest.drop ds.length with
        | [] => false
        | c2 :: _ => c2 = ')'
    else false

/-- The marker condition applied to a title string. -/
def hasPointsMarker (s : String) : Bool :=
  hasPointsMarker_list s.data

/-- Claim-side predicate, following the specification: the title starts
with a parenthesized integer followed by (at least one character of)
whitespace. -/
def hasPointsWsMarker (s : String) : Bool :=
  match s.data with
  | [] => false
  | c :: rest =>
    if c = '(' then
      let ds := rest.takeWhile Char.isDigit
      if ds.isEmpty then false
      else
        match rest.drop ds.length with
        | c2 :: c3 :: _ => c2 = ')' && pyIsSpace c3
        | _ => false
    else false

/-- Ticket payload as the specification describes it: the mapping
`api_key, product, component, version, summary, description, url,
op_sys, platform`, where summary is the normalized title, description
is the card description, url is the card short URL,
product/component/version fall back to the static defaults, and OS and
platform are the constant string Unspecified. -/
def spec_ticket_payload (key : String) (bz : BzSection) (card : Card) : List (String × JVal) :=
  [("api_key", JVal.str key),
   ("product", JVal.str (bz.product.getD DEFAULT_PRODUCT)),
   ("component", JVal.str (bz.component.getD DEFAULT_COMPONENT)),
   ("version", JVal.str (bz.version.getD DEFAULT_VERSION)),
   ("summary", JVal.str (normalize_card_name card.name)),
   ("description", JVal.str card.description),
   ("url", JVal.str card.short_url),
   ("op_sys", JVal.str "Unspecified"),
   ("platform", JVal.str "Unspecified")]

/-! ### Helper lemmas -/

theorem takeWhile_all_append {p : Char → Bool} (l : List Char) (x : Char) (tl : List Char)
    (h : ∀ c ∈ l, p c = true) (hx : p x = false) :
    (l ++ x :: tl).takeWhile p = l := by
  induction l with
  | nil => simp [List.takeWhile_cons, hx]
  | cons c l ih =>
    have hc : p c = true := h c (by simp)
    simp only [List.cons_append, List.takeWhile_cons, hc, if_pos]
    rw [ih (fun d hd => h d (by simp [hd]))]

theorem dropWhile_replicate_append {p : Char → Bool} (n : Nat) (c : Char) (l : List Char)
    (hc : p c = true) :
    (List.replicate n c ++ l).dropWhile p = l.dropWhile p := by
  induction n with
  | zero => simp
  | succ n ih => simp [List.replicate_succ, List.dropWhile_cons, hc, ih]

theorem rstripSlashes_strips (b : String) (n : Nat) (h : b.data.getLast? ≠ some '/') :
    rstripSlashes (b ++ (⟨List.replicate n '/'⟩ : String)) = b := by
  unfold rstripSlashes
  rw [String.data_append, List.reverse_append, List.reverse_replicate]
  rw [dropWhile_replicate_append n '/' _ (by decide)]
  have hid : b.data.reverse.dropWhile (fun c => c = '/') = b.data.reverse := by
    cases hrev : b.data.reverse with
    | nil => rfl
    | cons a t =>
      have hlast : b.data.getLast? = some a := by
        rw [← List.head?_reverse, hrev]; rfl
      have ha : ¬(a = '/') := fun he => h (by rw [hlast, he])
      simp [List.dropWhile_cons, ha]
  rw [hid, List.reverse_reverse]

/-! ### Claim C10 -/

/-- C10: for every invocation without a `--config` argument, the
selected config file is always `DEFAULT_CONFIG_FILES[0]`
(`.trello-to-bug` in the current directory), even when only the
home-directory candidate `~/.trello-to-bug` exists, because the
`for`-`else` fallback clause runs unconditionally (the loop contains no
`break`). -/
theorem config_selection_ignores_home (ex : String → Bool) (home : String)
    (hhome : ex (home ++ "/.trello-to-bug") = true)
    (hlocal : ex ".trello-to-bug" = false) :
    resolve_config_file ex home none = ".trello-to-bug" := rfl

/-- Witness for `config_selection_ignores_home` at a concrete
filesystem where only the home-directory candidate exists. -/
theorem config_selection_ignores_home_witness :
    resolve_config_file (fun f => f == "/home/u/.trello-to-bug") "/home/u" none
      = ".trello-to-bug" :=
  config_selection_ignores_home (fun f => f == "/home/u/.trello-to-bug") "/home/u"
    (by decide) (by decide)

/-! ### Claim C5 -/

/-- C5: for every argument containing a slash, a URL path of the form
`/c/<id>/...` yields exactly `<id>` as the card identifier, and a path
lacking that shape makes the `__main__` block exit with code 1 before
`main` (and hence before any action) runs. -/
theorem card_id_extraction (id rest : String) (hne : id ≠ "")
    (hnos : ∀ c ∈ id.data, c ≠ '/') :
    card_path ("/c/" ++ id ++ "/" ++ rest) = some id ∧
    (∀ arg path, arg.data.contains '/' = true → card_path path = none →
       main_card_id arg path = Dispatch.exit1) := by
  constructor
  · have hd : ("/c/" ++ id ++ "/" ++ rest).data
        = '/' :: 'c' :: '/' :: (id.data ++ '/' :: rest.data) := by
      simp [String.data_append]
    rw [card_path, hd]
    show card_path_list _ = some id
    have htw : (id.data ++ '/' :: rest.data).takeWhile (fun c => decide (c ≠ '/')) = id.data := by
      refine takeWhile_all_append id.data '/' rest.data (fun c hc => ?_) (by simp)
      exact decide_eq_true (hnos c hc)
    have hdata_ne : id.data ≠ [] := by
      intro hnil
      exact hne (by cases id with | mk l => simp_all)
    have hempty : id.data.isEmpty = false := by
      cases hdata : id.data with
      | nil => exact absurd hdata hdata_ne
      | cons a t => rfl
    simp only [card_path_list]
    rw [htw, hempty]
    simp only [Bool.false_eq_true, if_false]
    rw [List.drop_left]
    rfl
  · intro arg path h1 h2
    unfold main_card_id
    rw [h1, h2]
    rfl

/-- Witness for `card_id_extraction`: the spec's own example URL path
`/c/AbC123/4-fix-login` yields `AbC123`, and a board URL without the
`/c/` shape is rejected. -/
theorem card_id_extraction_witness :
    card_path ("/c/" ++ "AbC123" ++ "/" ++ "4-fix-login") = some "AbC123" ∧
    main_card_id "https://trello.com/b/xyz" "/b/xyz" = Dispatch.exit1 :=
  ⟨(card_id_extraction "AbC123" "4-fix-login" (by decide) (by decide)).1,
   (card_id_extraction "AbC123" "4-fix-login" (by decide) (by decide)).2
     "https://trello.com/b/xyz" "/b/xyz" (by decide) (by decide)⟩

/-! ### Claim C4 -/

theorem story_name_list_none (l : List Char) (hm : hasPointsMarker_list l = false) :
    story_name_list l = none := by
  cases l with
  | nil => rfl
  | cons c rest =>
    rw [hasPointsMarker_list] at hm
    rw [story_name_list]
    by_cases hc : c = '('
    · simp only [if_pos hc] at hm
      simp only [if_pos hc]
      by_cases hds : (rest.takeWhile Char.isDigit).isEmpty = true
      · rw [if_pos hds]
      · rw [if_neg hds] at hm
        rw [if_neg hds]
        cases hdrop : rest.drop (rest.takeWhile Char.isDigit).length with
        | nil => rfl
        | cons c2 t =>
          rw [hdrop] at hm
          have hc2 : ¬(c2 = ')') := by simpa using hm
          simp [hc2]
    · rw [if_neg hc]

/-- C4 (amended): for every title of the form `(<digits>)<rest>` with a
nonempty digit run, the normalized title is the remainder `<rest>` after
its leading whitespace run (possibly empty: the pattern's `[\s]*` also
matches no whitespace), truncated at the first newline (the regex `.`
does not match `\n`); for every title not starting with a parenthesized
integer the normalization is the identity. -/
theorem title_normalization (d r : String) (hne : d ≠ "")
    (hdig : ∀ c ∈ d.data, c.isDigit = true) :
    normalize_card_name ("(" ++ d ++ ")" ++ r)
      = (⟨(r.data.dropWhile pyIsSpace).takeWhile (fun c3 => c3 ≠ '\n')⟩ : String) ∧
    (∀ s, hasPointsMarker s = false → normalize_card_name s = s) := by
  constructor
  · have hd : ("(" ++ d ++ ")" ++ r).data = '(' :: (d.data ++ ')' :: r.data) := by
      simp [String.data_append]
    rw [normalize_card_name, story_name_with_points, hd]
    have htw : (d.data ++ ')' :: r.data).takeWhile Char.isDigit = d.data :=
      takeWhile_all_append d.data ')' r.data hdig (by decide)
    have hdata_ne : d.data ≠ [] := by
      intro hnil
      exact hne (by cases d with | mk l => simp_all)
    have hempty : d.data.isEmpty = false := by
      cases hdata : d.data with
      | nil => exact absurd hdata hdata_ne
      | cons a t => rfl
    simp only [story_name_list, htw, hempty, Bool.false_eq_true, if_false, if_true,
      eq_self_iff_true, List.drop_left]
  · intro s hm
    rw [normalize_card_name, story_name_with_points,
        story_name_list_none s.data (by rw [hasPointsMarker] at hm; exact hm)]

/-- C4 counterexample: the title `(3)Fix` does not start with a
parenthesized integer followed by whitespace (the claimed prefix
shape), yet normalization is not the identity on it: the story-point
marker is stripped even when no whitespace follows it. -/
theorem title_normalization_counterexample :
    hasPointsWsMarker "(3)Fix" = false ∧
    normalize_card_name "(3)Fix" = "Fix" ∧ ("Fix" : String) ≠ "(3)Fix" :=
  ⟨by decide, by decide, by decide⟩

/-- Witness for `title_normalization` at the spec's example title
`(3) Fix login crash` and at a title with no story-point marker. -/
theorem title_normalization_witness :
    normalize_card_name ("(" ++ "3" ++ ")" ++ " Fix login crash") = "Fix login crash" ∧
    normalize_card_name "no marker" = "no marker" := by
  constructor
  · have h := (title_normalization "3" " Fix login crash" (by decide) (by decide)).1
    rw [h]; decide
  · exact (title_normalization "3" " Fix login crash" (by decide) (by decide)).2
      "no marker" (by decide)

/-! ### Claim C6 -/

/-- C6: for every tracker success response whose parsed body carries an
`id` and every configured base URL, the derived ticket URL equals the
base URL with all trailing slashes stripped, followed by
`/show_bug.cgi?id=` and the id; when no URL is configured the default
instance URL is treated the same way. -/
theorem ticket_url_shape :
    (∀ (bz : BzSection) (card : Card) (key b body : String) (n : Nat)
       (fs : List (String × JVal)) (idv : JVal),
       bz.api_key = some key →
       bz.url = some (b ++ (⟨List.replicate n '/'⟩ : String)) →
       b.data.getLast? ≠ some '/' →
       json_loads body = some (JVal.obj fs) →
       lookupField fs "id" = some idv →
       (file_trello_bug bz card (BzResult.success body)).2 =
         Except.ok (FileBugRet.bug
           { id := idv,
             url := b ++ "/show_bug.cgi?id=" ++ pyStr idv,
             summary := normalize_card_name card.name })) ∧
    (∀ (bz : BzSection) (card : Card) (key body : String)
       (fs : List (String × JVal)) (idv : JVal),
       bz.api_key = some key → bz.url = none →
       json_loads body = some (JVal.obj fs) →
       lookupField fs "id" = some idv →
       (file_trello_bug bz card (BzResult.success body)).2 =
         Except.ok (FileBugRet.bug
           { id := idv,
             url := "https://bugzilla.mozilla.org/show_bug.cgi?id=" ++ pyStr idv,
             summary := normalize_card_name card.name })) := by
  constructor
  · intro bz card key b body n fs idv hkey hurl hlast hparse hid
    simp only [file_trello_bug, hkey, hurl, Option.getD_some,
      rstripSlashes_strips b n hlast, file_bug_response, hparse, hid]
  · intro bz card key body fs idv hkey hurl hparse hid
    have hdef : rstripSlashes DEFAULT_BUGZILLA_URL = "https://bugzilla.mozilla.org" := by decide
    simp only [file_trello_bug, hkey, hurl, Option.getD_none, hdef, file_bug_response,
      hparse, hid]
    rfl

/-- Witness for `ticket_url_shape`, matching the spec's example: base
URL `https://bugzilla.example.org/` and response id 42 produce
`https://bugzilla.example.org/show_bug.cgi?id=42`; the default instance
gives `https://bugzilla.mozilla.org/show_bug.cgi?id=42`. -/
theorem ticket_url_shape_witness :
    (file_trello_bug
        { api_key := some "K", url := some "https://bugzilla.example.org/",
          product := none, component := none, version := none }
        { name := "t", description := "d", short_url := "u" }
        (BzResult.success "\x7b\"id\": 42\x7d")).2 =
      Except.ok (FileBugRet.bug
        { id := JVal.num 42,
          url := "https://bugzilla.example.org" ++ "/show_bug.cgi?id=" ++ pyStr (JVal.num 42),
          summary := normalize_card_name "t" }) ∧
    (file_trello_bug
        { api_key := some "K", url := none,
          product := none, component := none, version := none }
        { name := "t", description := "d", short_url := "u" }
        (BzResult.success "\x7b\"id\": 42\x7d")).2 =
      Except.ok (FileBugRet.bug
        { id := JVal.num 42,
          url := "https://bugzilla.mozilla.org/show_bug.cgi?id=" ++ pyStr (JVal.num 42),
          summary := normalize_card_name "t" }) := by
  constructor
  · have h := ticket_url_shape.1
      { api_key := some "K", url := some "https://bugzilla.example.org/",
        product := none, component := none, version := none }
      { name := "t", description := "d", short_url := "u" }
      "K" "https://bugzilla.example.org" "\x7b\"id\": 42\x7d" 1
      [("id", JVal.num 42)] (JVal.num 42)
      rfl (by decide) (by decide) (by rfl) (by rfl)
    exact h
  · exact ticket_url_shape.2
      { api_key := some "K", url := none,
        product := none, component := none, version := none }
      { name := "t", description := "d", short_url := "u" }
      "K" "\x7b\"id\": 42\x7d" [("id", JVal.num 42)] (JVal.num 42)
      rfl rfl (by rfl) (by rfl)

/-! ### Claim C8 -/

/-- C8: for every card the bug-creation POST goes to `{base}/rest/bug`
(base URL with trailing slashes stripped) and its payload is exactly the
nine-field mapping of the specification: api_key, product, component and
version (defaulted from the static defaults when absent), summary (the
normalized title), description and url from the card, and constant
op_sys and platform. -/
theorem ticket_payload_exact (bz : BzSection) (card : Card) (resp : BzResult) (key : String)
    (hkey : bz.api_key = some key) :
    (file_trello_bug bz card resp).1 =
      [Event.postBug (rstripSlashes (bz.url.getD DEFAULT_BUGZILLA_URL) ++ "/rest/bug")
         (spec_ticket_payload key bz card)] := by
  simp only [file_trello_bug, hkey, mk_bug_data, spec_ticket_payload]

/-- Witness for `ticket_payload_exact` at a concrete config and card. -/
theorem ticket_payload_exact_witness :
    (file_trello_bug
        { api_key := some "K", url := none, product := none, component := none, version := none }
        { name := "(3) t", description := "d", short_url := "u" }
        (BzResult.httpError "x")).1 =
      [Event.postBug
         (rstripSlashes (DEFAULT_BUGZILLA_URL) ++ "/rest/bug")
         (spec_ticket_payload "K"
           { api_key := some "K", url := none, product := none, component := none, version := none }
           { name := "(3) t", description := "d", short_url := "u" })] :=
  ticket_payload_exact
    { api_key := some "K", url := none, product := none, component := none, version := none }
    { name := "(3) t", description := "d", short_url := "u" }
    (BzResult.httpError "x") "K" rfl

/-! ### Claim C7 -/

/-- C7 (amended): for every non-2xx tracker error body, a body that
fails to parse as JSON is reported verbatim; a body parsing to a JSON
object containing both `code` and `message` fields is reported as
`Error {code}: {message}`; but a JSON object lacking one of the fields
raises an uncaught `KeyError`, and JSON that is not an object raises an
uncaught `TypeError`, so no message is reported for those bodies. -/
theorem bugzilla_error_reporting :
    (∀ body, json_loads body = none → get_bugzilla_error body = Except.ok body) ∧
    (∀ body fs c m, json_loads body = some (JVal.obj fs) →
       lookupField fs "code" = some c → lookupField fs "message" = some m →
       get_bugzilla_error body = Except.ok ("Error " ++ pyStr c ++ ": " ++ pyStr m)) ∧
    (∀ body fs, json_loads body = some (JVal.obj fs) →
       (lookupField fs "code" = none ∨ lookupField fs "message" = none) →
       get_bugzilla_error body = Except.error PyExc.keyError) ∧
    (∀ body v, json_loads body = some v → (∀ fs, v ≠ JVal.obj fs) →
       get_bugzilla_error body = Except.error PyExc.typeError) := by
  refine ⟨?_, ?_, ?_, ?_⟩
  · intro body hparse
    simp only [get_bugzilla_error, hparse]
  · intro body fs c m hparse hcode hmsg
    simp only [get_bugzilla_error, hparse, hcode, hmsg]
  · intro body fs hparse hmiss
    simp only [get_bugzilla_error, hparse]
    cases hcode : lookupField fs "code" with
    | none => rfl
    | some c =>
      cases hmsg : lookupField fs "message" with
      | none => rfl
      | some m =>
        rcases hmiss with h | h
        · rw [hcode] at h; exact absurd h (by simp)
        · rw [hmsg] at h; exact absurd h (by simp)
  · intro body v hparse hnot
    simp only [get_bugzilla_error, hparse]

/-- C7 counterexample: the body `\x7b\x7d` (an empty JSON object)
parses as JSON, yet the reported error message is neither the
structured `Error {code}: {message}` form nor the raw body: the
function raises an uncaught `KeyError`. -/
theorem bugzilla_error_counterexample :
    (json_loads "\x7b\x7d").isSome = true ∧
    get_bugzilla_error "\x7b\x7d" = Except.error PyExc.keyError :=
  ⟨rfl, rfl⟩

/-- Witness for `bugzilla_error_reporting` at concrete bodies for each
of its four cases. -/
theorem bugzilla_error_reporting_witness :
    get_bugzilla_error "oops" = Except.ok "oops" ∧
    get_bugzilla_error "\x7b\"code\": 101, \"message\": \"bad\"\x7d"
      = Except.ok ("Error " ++ pyStr (JVal.num 101) ++ ": " ++ pyStr (JVal.str "bad")) ∧
    get_bugzilla_error "\x7b\"code\": 101\x7d" = Except.error PyExc.keyError ∧
    get_bugzilla_error "3" = Except.error PyExc.typeError :=
  ⟨bugzilla_error_reporting.1 "oops" (by rfl),
   bugzilla_error_reporting.2.1 "\x7b\"code\": 101, \"message\": \"bad\"\x7d"
     [("code", JVal.num 101), ("message", JVal.str "bad")] (JVal.num 101) (JVal.str "bad")
     (by rfl) (by rfl) (by rfl),
   bugzilla_error_reporting.2.2.1 "\x7b\"code\": 101\x7d"
     [("code", JVal.num 101)] (by rfl) (Or.inr (by rfl)),
   bugzilla_error_reporting.2.2.2 "3" (JVal.num 3) (by rfl)
     (fun fs h => JVal.noConfusion h)⟩

/-! ### Lemmas about the phases of `main` -/

theorem events_admin_only (evs : List Event)
    (hsh : ∀ e ∈ evs, e = Event.genTokens ∨ e = Event.writeConfig) :
    evs.countP isSetDescAttempt = 0 ∧ evs.countP isSetDescOk = 0 ∧
    evs.countP isBugFiled = 0 ∧ setDescWrites evs = [] := by
  refine ⟨List.countP_eq_zero.mpr ?_, List.countP_eq_zero.mpr ?_,
    List.countP_eq_zero.mpr ?_, List.filterMap_eq_nil_iff.mpr ?_⟩ <;>
    intro e he <;> rcases hsh e he with h | h <;> subst h <;> simp [isSetDescAttempt,
      isSetDescOk, isBugFiled]

theorem query_option_some (cur : Option String) (inputs : List String)
    (r : Option String) (ch : Bool) (ins : List String)
    (h : query_option cur inputs = some (r, ch, ins)) : ∃ v, r = some v := by
  unfold query_option at h
  cases cur with
  | some v =>
    simp at h
    exact ⟨v, h.1.symm⟩
  | none =>
    cases hf : firstNonempty inputs with
    | none => rw [hf] at h; exact absurd h (by simp)
    | some p =>
      rw [hf] at h
      simp at h
      exact ⟨p.1, h.1.symm⟩

theorem load_config_inv (c0 : Config) (inputs : List String)
    (tokens : List (String × String)) (cfg : Config) (evs : List Event)
    (ins : List String) (tks : List (String × String))
    (h : load_config c0 inputs tokens = some (cfg, evs, ins, tks)) :
    (∀ e ∈ evs, e = Event.genTokens ∨ e = Event.writeConfig) ∧
    get_trello cfg = Except.ok () ∧ (∃ v, cfg.bugzilla.api_key = some v) := by
  unfold load_config at h
  cases h1 : query_option c0.bugzilla.api_key inputs with
  | none => rw [h1] at h; exact absurd h (by simp)
  | some t1 =>
    obtain ⟨bzKey, ch1, in1⟩ := t1
    obtain ⟨v1, hv1⟩ := query_option_some _ _ _ _ _ h1
    rw [h1] at h
    dsimp only at h
    cases h2 : query_option c0.trello.api_key in1 with
    | none => rw [h2] at h; exact absurd h (by simp)
    | some t2 =>
      obtain ⟨trKey, ch2, in2⟩ := t2
      obtain ⟨v2, hv2⟩ := query_option_some _ _ _ _ _ h2
      rw [h2] at h
      dsimp only at h
      cases h3 : query_option c0.trello.api_secret in2 with
      | none => rw [h3] at h; exact absurd h (by simp)
      | some t3 =>
        obtain ⟨trSec, ch3, in3⟩ := t3
        obtain ⟨v3, hv3⟩ := query_option_some _ _ _ _ _ h3
        rw [h3] at h
        dsimp only at h
        split at h
        · cases tokens with
          | nil => exact absurd h (by simp [generate_trello_oauth_tokens])
          | cons t ts =>
            simp [generate_trello_oauth_tokens] at h
            obtain ⟨hcfg, hevs, -, -⟩ := h
            refine ⟨?_, ?_, ?_⟩
            · intro e he
              rw [← hevs] at he
              simpa using he
            · rw [← hcfg, get_trello]
              simp [hv1, hv2, hv3]
            · rw [← hcfg]
              exact ⟨v1, hv1⟩
        · next hcond =>
          have ht : ¬(c0.trello.oauth_token.isNone = true) := by
            intro hx; exact hcond (by simp [hx])
          have hs : ¬(c0.trello.oauth_token_secret.isNone = true) := by
            intro hx; exact hcond (by simp [hx])
          cases hot : c0.trello.oauth_token with
          | none => exact absurd (by simp [hot]) ht
          | some vt =>
            cases hos : c0.trello.oauth_token_secret with
            | none => exact absurd (by simp [hos]) hs
            | some vs =>
              have hget : get_trello
                  ({ bugzilla := { c0.bugzilla with api_key := bzKey },
                     trello := { c0.trello with api_key := trKey, api_secret := trSec } } : Config)
                  = Except.ok () := by
                rw [get_trello]
                simp [hv1, hv2, hv3, hot, hos]
              split at h <;> simp only [Option.some.injEq, Prod.mk.injEq] at h <;>
                obtain ⟨hcfg, hevs, -, -⟩ := h
              · refine ⟨?_, ?_, ?_⟩
                · intro e he
                  rw [← hevs] at he
                  exact Or.inr (by simpa using he)
                · rw [← hcfg]; exact hget
                · rw [← hcfg]; exact ⟨v1, hv1⟩
              · refine ⟨?_, ?_, ?_⟩
                · intro e he
                  rw [← hevs] at he
                  simp at he
                · rw [← hcfg]; exact hget
                · rw [← hcfg]; exact ⟨v1, hv1⟩

theorem get_card_loop_counts (card_id : String) (resps : List CardResp)
    (toks : List (String × String)) :
    (get_card_loop card_id resps toks).1.countP isSetDescAttempt = 0 ∧
    (get_card_loop card_id resps toks).1.countP isSetDescOk = 0 ∧
    (get_card_loop card_id resps toks).1.countP isBugFiled = 0 ∧
    setDescWrites (get_card_loop card_id resps toks).1 = [] := by
  induction resps generalizing toks with
  | nil => simp [get_card_loop, setDescWrites]
  | cons r rest ih =>
    cases r with
    | ok c =>
      simp [get_card_loop, setDescWrites, isSetDescAttempt, isSetDescOk, isBugFiled]
    | unauthorized =>
      cases toks with
      | nil =>
        simp [get_card_loop, setDescWrites, isSetDescAttempt, isSetDescOk, isBugFiled]
      | cons t ts =>
        have h := ih ts
        simp [get_card_loop, setDescWrites, isSetDescAttempt, isSetDescOk, isBugFiled,
          h.1, h.2.1, h.2.2.1]
        rw [setDescWrites] at h
        exact List.filterMap_eq_nil_iff.mp h.2.2.2

theorem set_desc_loop_facts (desc : String) (resps : List Bool)
    (toks : List (String × String)) :
    ((set_desc_loop desc resps toks).2.1 = LoopRes.ok () →
       setDescWrites (set_desc_loop desc resps toks).1 = [desc] ∧
       (set_desc_loop desc resps toks).1.countP isSetDescOk = 1) ∧
    ((set_desc_loop desc resps toks).2.1 = LoopRes.pending →
       setDescWrites (set_desc_loop desc resps toks).1 = [] ∧
       (set_desc_loop desc resps toks).1.countP isSetDescOk = 0) ∧
    (set_desc_loop desc resps toks).1.countP isBugFiled = 0 ∧
    (set_desc_loop desc resps toks).1.countP isSetDescOk ≤ 1 := by
  induction resps generalizing toks with
  | nil => simp [set_desc_loop, setDescWrites]
  | cons r rest ih =>
    cases r with
    | true =>
      simp [set_desc_loop, setDescWrites, isSetDescOk, isBugFiled]
    | false =>
      cases toks with
      | nil => simp [set_desc_loop, setDescWrites, isSetDescOk, isBugFiled]
      | cons t ts =>
        have h := ih ts
        refine ⟨?_, ?_, ?_, ?_⟩
        · intro hok
          have hok2 : (set_desc_loop desc rest ts).2.1 = LoopRes.ok () := by
            simpa [set_desc_loop] using hok
          have h1 := h.1 hok2
          simp [set_desc_loop, setDescWrites, isSetDescOk, isBugFiled, h1.2]
          rw [setDescWrites] at h1
          exact h1.1
        · intro hp
          have hp2 : (set_desc_loop desc rest ts).2.1 = LoopRes.pending := by
            simpa [set_desc_loop] using hp
          have h1 := h.2.1 hp2
          simp [set_desc_loop, setDescWrites, isSetDescOk, isBugFiled, h1.2]
          rw [setDescWrites] at h1
          exact List.filterMap_eq_nil_iff.mp h1.1
        · simp [set_desc_loop, isBugFiled, h.2.2.1]
        · simp [set_desc_loop, isSetDescOk]
          exact h.2.2.2

theorem file_trello_bug_counts (bz : BzSection) (card : Card) (resp : BzResult) :
    (file_trello_bug bz card resp).1.countP isSetDescAttempt = 0 ∧
    (file_trello_bug bz card resp).1.countP isSetDescOk = 0 ∧
    (file_trello_bug bz card resp).1.countP isBugFiled = 0 ∧
    setDescWrites (file_trello_bug bz card resp).1 = [] := by
  unfold file_trello_bug
  cases bz.api_key <;>
    simp [setDescWrites, isSetDescAttempt, isSetDescOk, isBugFiled]

theorem file_bug_response_httpError_not_bug (base name body : String) (b : Bug) :
    file_bug_response base name (BzResult.httpError body) ≠ Except.ok (FileBugRet.bug b) := by
  unfold file_bug_response
  cases hge : get_bugzilla_error body <;> simp [hge]

theorem get_card_retry_trace (card_id : String) (c : Card) (n : Nat)
    (toks : List (String × String)) (hn : n ≤ toks.length) :
    get_card_loop card_id (List.replicate n CardResp.unauthorized ++ [CardResp.ok c]) toks =
      ((List.replicate n
          [Event.getCard card_id false, Event.genTokens, Event.writeConfig]).flatten
         ++ [Event.getCard card_id true, Event.cardFetched c],
       LoopRes.ok c, toks.drop n) := by
  induction n generalizing toks with
  | zero => simp [get_card_loop]
  | succ n ih =>
    cases toks with
    | nil => simp at hn
    | cons t ts =>
      have hn2 : n ≤ ts.length := by simpa using hn
      simp [List.replicate_succ, get_card_loop, ih ts hn2]

theorem get_card_loop_pending (card_id : String) (resps : List CardResp)
    (hall : ∀ r ∈ resps, r = CardResp.unauthorized) (toks : List (String × String)) :
    (get_card_loop card_id resps toks).2.1 = LoopRes.pending := by
  induction resps generalizing toks with
  | nil => rfl
  | cons r rest ih =>
    have hr : r = CardResp.unauthorized := hall r (by simp)
    subst hr
    cases toks with
    | nil => rfl
    | cons t ts =>
      simp [get_card_loop, ih (fun x hx => hall x (by simp [hx])) ts]

theorem set_desc_retry_trace (desc : String) (n : Nat)
    (toks : List (String × String)) (hn : n ≤ toks.length) :
    set_desc_loop desc (List.replicate n false ++ [true]) toks =
      ((List.replicate n
          [Event.setDesc desc false, Event.genTokens, Event.writeConfig]).flatten
         ++ [Event.setDesc desc true],
       LoopRes.ok (), toks.drop n) := by
  induction n generalizing toks with
  | zero => simp [set_desc_loop]
  | succ n ih =>
    cases toks with
    | nil => simp at hn
    | cons t ts =>
      have hn2 : n ≤ ts.length := by simpa using hn
      simp [List.replicate_succ, set_desc_loop, ih ts hn2]

theorem main_pending_of_unauthorized (cf : Option String) (cid : String) (w : World)
    (hall : ∀ r ∈ w.cardResps, r = CardResp.unauthorized) :
    (main cf cid w).2 = Outcome.pending := by
  unfold main
  cases hload : load_config w.cfg0 w.inputs w.tokens with
  | none => rfl
  | some q =>
    obtain ⟨cfg, evs, ins, tks⟩ := q
    dsimp only
    rw [(load_config_inv _ _ _ _ _ _ _ hload).2.1]
    dsimp only
    rw [get_card_loop_pending cid w.cardResps hall tks]

/-- Exhaustive characterization of a run of `main`: either the config
prompt never completed, or the config loaded and the run is in one of
five states determined by the fetch loop, the Bugzilla response and the
update loop. -/
theorem main_cases (cf : Option String) (cid : String) (w : World) :
    main cf cid w = ([], Outcome.pending) ∨
    ∃ cfg evs ins tks,
      load_config w.cfg0 w.inputs w.tokens = some (cfg, evs, ins, tks) ∧
      (((get_card_loop cid w.cardResps tks).2.1 = LoopRes.pending ∧
          main cf cid w = (evs ++ (get_card_loop cid w.cardResps tks).1, Outcome.pending)) ∨
       ∃ card, (get_card_loop cid w.cardResps tks).2.1 = LoopRes.ok card ∧
         ((∃ e, (file_trello_bug cfg.bugzilla card w.bzResp).2 = Except.error e ∧
             main cf cid w = (evs ++ (get_card_loop cid w.cardResps tks).1
               ++ (file_trello_bug cfg.bugzilla card w.bzResp).1, Outcome.crashed e)) ∨
          (∃ nn, (file_trello_bug cfg.bugzilla card w.bzResp).2
               = Except.ok (FileBugRet.errcode nn) ∧
             main cf cid w = (evs ++ (get_card_loop cid w.cardResps tks).1
               ++ (file_trello_bug cfg.bugzilla card w.bzResp).1,
               Outcome.crashed PyExc.typeError)) ∨
          ∃ b, (file_trello_bug cfg.bugzilla card w.bzResp).2
              = Except.ok (FileBugRet.bug b) ∧
            (((set_desc_loop (b.url ++ "\n\n" ++ card.description) w.setResps
                  (get_card_loop cid w.cardResps tks).2.2).2.1 = LoopRes.pending ∧
                main cf cid w = (evs ++ (get_card_loop cid w.cardResps tks).1
                  ++ (file_trello_bug cfg.bugzilla card w.bzResp).1
                  ++ [Event.bugFiled b.url]
                  ++ (set_desc_loop (b.url ++ "\n\n" ++ card.description) w.setResps
                        (get_card_loop cid w.cardResps tks).2.2).1, Outcome.pending)) ∨
             ((set_desc_loop (b.url ++ "\n\n" ++ card.description) w.setResps
                  (get_card_loop cid w.cardResps tks).2.2).2.1 = LoopRes.ok () ∧
                main cf cid w = (evs ++ (get_card_loop cid w.cardResps tks).1
                  ++ (file_trello_bug cfg.bugzilla card w.bzResp).1
                  ++ [Event.bugFiled b.url]
                  ++ (set_desc_loop (b.url ++ "\n\n" ++ card.description) w.setResps
                        (get_card_loop cid w.cardResps tks).2.2).1,
                  Outcome.exited 0))))) := by
  cases hload : load_config w.cfg0 w.inputs w.tokens with
  | none =>
    left
    unfold main
    rw [hload]
  | some q =>
    obtain ⟨cfg, evs, ins, tks⟩ := q
    right
    refine ⟨cfg, evs, ins, tks, rfl, ?_⟩
    have hmain : main cf cid w =
        (match (get_card_loop cid w.cardResps tks).2.1 with
         | LoopRes.pending => (evs ++ (get_card_loop cid w.cardResps tks).1, Outcome.pending)
         | LoopRes.ok card =>
           match (file_trello_bug cfg.bugzilla card w.bzResp).2 with
           | Except.error e => (evs ++ (get_card_loop cid w.cardResps tks).1
               ++ (file_trello_bug cfg.bugzilla card w.bzResp).1, Outcome.crashed e)
           | Except.ok (FileBugRet.errcode _) => (evs ++ (get_card_loop cid w.cardResps tks).1
               ++ (file_trello_bug cfg.bugzilla card w.bzResp).1, Outcome.crashed PyExc.typeError)
           | Except.ok (FileBugRet.bug b) =>
             match (set_desc_loop (b.url ++ "\n\n" ++ card.description) w.setResps
                 (get_card_loop cid w.cardResps tks).2.2).2.1 with
             | LoopRes.pending => (evs ++ (get_card_loop cid w.cardResps tks).1
                 ++ (file_trello_bug cfg.bugzilla card w.bzResp).1
                 ++ [Event.bugFiled b.url]
                 ++ (set_desc_loop (b.url ++ "\n\n" ++ card.description) w.setResps
                       (get_card_loop cid w.cardResps tks).2.2).1, Outcome.pending)
             | LoopRes.ok _ => (evs ++ (get_card_loop cid w.cardResps tks).1
                 ++ (file_trello_bug cfg.bugzilla card w.bzResp).1
                 ++ [Event.bugFiled b.url]
                 ++ (set_desc_loop (b.url ++ "\n\n" ++ card.description) w.setResps
                       (get_card_loop cid w.cardResps tks).2.2).1, Outcome.exited 0)) := by
      unfold main
      rw [hload]
      dsimp only
      rw [(load_config_inv _ _ _ _ _ _ _ hload).2.1]
    rw [hmain]
    cases hfetch : (get_card_loop cid w.cardResps tks).2.1 with
    | pending => exact Or.inl ⟨rfl, rfl⟩
    | ok card =>
      right
      refine ⟨card, rfl, ?_⟩
      dsimp only
      cases hfile : (file_trello_bug cfg.bugzilla card w.bzResp).2 with
      | error e => exact Or.inl ⟨e, rfl, rfl⟩
      | ok fr =>
        cases fr with
        | errcode nn => exact Or.inr (Or.inl ⟨nn, rfl, rfl⟩)
        | bug b =>
          refine Or.inr (Or.inr ⟨b, rfl, ?_⟩)
          dsimp only
          cases hupd : (set_desc_loop (b.url ++ "\n\n" ++ card.description) w.setResps
              (get_card_loop cid w.cardResps tks).2.2).2.1 with
          | pending => exact Or.inl ⟨rfl, rfl⟩
          | ok u => exact Or.inr ⟨rfl, rfl⟩

theorem file_trello_bug_httpError_not_bug (bz : BzSection) (card : Card) (body : String)
    (b : Bug) :
    (file_trello_bug bz card (BzResult.httpError body)).2 ≠ Except.ok (FileBugRet.bug b) := by
  unfold file_trello_bug
  cases bz.api_key with
  | none => simp
  | some k =>
    dsimp only
    exact file_bug_response_httpError_not_bug _ _ _ b

theorem get_bugzilla_error_ok_of_fields (body : String) (fs : List (String × JVal))
    (c m : JVal) (hp : json_loads body = some (JVal.obj fs))
    (hc : lookupField fs "code" = some c) (hm2 : lookupField fs "message" = some m) :
    get_bugzilla_error body = Except.ok ("Error " ++ pyStr c ++ ": " ++ pyStr m) := by
  simp only [get_bugzilla_error, hp, hc, hm2]

theorem file_trello_bug_errcode (bz : BzSection) (card : Card) (body msg : String)
    (hge : get_bugzilla_error body = Except.ok msg) (key : String)
    (hkey : bz.api_key = some key) :
    (file_trello_bug bz card (BzResult.httpError body)).2
      = Except.ok (FileBugRet.errcode 1) := by
  simp only [file_trello_bug, hkey, file_bug_response, hge]

theorem get_card_loop_fetched (card_id : String) (resps : List CardResp)
    (toks : List (String × String)) (c : Card)
    (h : (get_card_loop card_id resps toks).2.1 = LoopRes.ok c) :
    Event.cardFetched c ∈ (get_card_loop card_id resps toks).1 := by
  induction resps generalizing toks with
  | nil => simp [get_card_loop] at h
  | cons r rest ih =>
    cases r with
    | ok c2 =>
      simp [get_card_loop] at h ⊢
      simp [h]
    | unauthorized =>
      cases toks with
      | nil => simp [get_card_loop] at h
      | cons t ts =>
        simp [get_card_loop] at h ⊢
        exact ih ts h

theorem setDescWrites_append (l1 l2 : List Event) :
    setDescWrites (l1 ++ l2) = setDescWrites l1 ++ setDescWrites l2 := by
  simp [setDescWrites]

/-! ### Claim C1 -/

/-- C1: in every run where the tracker POST returned a non-2xx status
the board-service update operation is never invoked (zero
`set_description` attempts); in every run at most one successful
description update happens, and an update implies ticket creation
returned success; and in every completed (non-pending) run the
description is updated exactly once if and only if ticket creation
returned success (the `bugFiled` event). -/
theorem card_update_iff_ticket_success (cf : Option String) (cid : String) (w : World) :
    (∀ body, w.bzResp = BzResult.httpError body →
       (main cf cid w).1.countP isSetDescAttempt = 0) ∧
    (main cf cid w).1.countP isSetDescOk ≤ 1 ∧
    ((main cf cid w).1.countP isSetDescOk = 1 →
       (main cf cid w).1.countP isBugFiled = 1) ∧
    ((main cf cid w).2 ≠ Outcome.pending →
       ((main cf cid w).1.countP isSetDescOk = 1 ↔
          (main cf cid w).1.countP isBugFiled = 1)) := by
  rcases main_cases cf cid w with hmain | ⟨cfg, evs, ins, tks, hload, hrest⟩
  · rw [hmain]
    exact ⟨fun _ _ => rfl, by simp, by simp, fun hnp => absurd rfl hnp⟩
  · obtain ⟨hevs, htr, hkey⟩ := load_config_inv _ _ _ _ _ _ _ hload
    obtain ⟨hl1, hl2, hl3, hl4⟩ := events_admin_only evs hevs
    obtain ⟨hf1, hf2, hf3, hf4⟩ := get_card_loop_counts cid w.cardResps tks
    rcases hrest with ⟨hfetch, hmain⟩ | ⟨card, hfetch, hsub⟩
    · rw [hmain]
      refine ⟨fun body hb => ?_, ?_, ?_, fun hnp => absurd rfl hnp⟩
      · simp [List.countP_append, hl1, hf1]
      · simp [List.countP_append, hl2, hf2]
      · intro hcp
        rw [show ((evs ++ (get_card_loop cid w.cardResps tks).1, Outcome.pending) :
            List Event × Outcome).1 = evs ++ (get_card_loop cid w.cardResps tks).1 from rfl,
          List.countP_append, hl2, hf2] at hcp
        simp at hcp
    · obtain ⟨hfi1, hfi2, hfi3, hfi4⟩ := file_trello_bug_counts cfg.bugzilla card w.bzResp
      rcases hsub with ⟨e, hfile, hmain⟩ | ⟨nn, hfile, hmain⟩ | ⟨b, hfile, hsub2⟩
      · rw [hmain]
        refine ⟨fun body hb => ?_, ?_, ?_, fun hnp => ?_⟩
        · simp [List.countP_append, hl1, hf1, hfi1]
        · simp [List.countP_append, hl2, hf2, hfi2]
        · intro hcp
          simp [List.countP_append, hl2, hf2, hfi2] at hcp
        · simp [List.countP_append, hl2, hf2, hfi2, hl3, hf3, hfi3]
      · rw [hmain]
        refine ⟨fun body hb => ?_, ?_, ?_, fun hnp => ?_⟩
        · simp [List.countP_append, hl1, hf1, hfi1]
        · simp [List.countP_append, hl2, hf2, hfi2]
        · intro hcp
          simp [List.countP_append, hl2, hf2, hfi2] at hcp
        · simp [List.countP_append, hl2, hf2, hfi2, hl3, hf3, hfi3]
      · have hs := set_desc_loop_facts (b.url ++ "\n\n" ++ card.description) w.setResps
          (get_card_loop cid w.cardResps tks).2.2
        have hnotbug : ∀ body, w.bzResp = BzResult.httpError body → False := by
          intro body hb
          rw [hb] at hfile
          exact absurd hfile (file_trello_bug_httpError_not_bug _ _ _ b)
        rcases hsub2 with ⟨hupd, hmain⟩ | ⟨hupd, hmain⟩
        · obtain ⟨hw, hcnt⟩ := hs.2.1 hupd
          rw [hmain]
          refine ⟨fun body hb => absurd (hnotbug body hb) (fun hff => hff),
            ?_, ?_, fun hnp => absurd rfl hnp⟩
          · simp [List.countP_append, hl2, hf2, hfi2, hcnt, isSetDescOk]
          · intro hcp
            simp [List.countP_append, hl2, hf2, hfi2, hcnt, isSetDescOk] at hcp
        · obtain ⟨hw, hcnt⟩ := hs.1 hupd
          rw [hmain]
          refine ⟨fun body hb => absurd (hnotbug body hb) (fun hff => hff),
            ?_, ?_, fun hnp => ?_⟩
          · simp [List.countP_append, hl2, hf2, hfi2, hcnt, isSetDescOk]
          · intro hcp
            simp [List.countP_append, hl3, hf3, hfi3, isBugFiled, hs.2.2.1]
          · simp [List.countP_append, hl2, hf2, hfi2, hcnt, isSetDescOk,
              hl3, hf3, hfi3, isBugFiled, hs.2.2.1]

/-! ### Concrete environments for witnesses and counterexamples -/

/-- A config file with every required field present. -/
def fullConfig : Config :=
  { bugzilla := { api_key := some "BK", url := none, product := none, component := none,
                  version := none },
    trello := { api_key := some "TK", api_secret := some "TS", oauth_token := some "OT",
                oauth_token_secret := some "OS" } }

/-- The card of the spec's examples. -/
def demoCard : Card :=
  { name := "(3) Fix login crash", description := "Repro steps.",
    short_url := "https://trello.com/c/AbC123" }

/-- Environment of a fully successful run: complete config, card
fetched on the first attempt, tracker responds 2xx with id 42, first
description update succeeds. -/
def okWorld : World :=
  { ex := fun _ => false, home := "/home/u", cfg0 := fullConfig, inputs := [], tokens := [],
    cardResps := [CardResp.ok demoCard],
    bzResp := BzResult.success "\x7b\"id\": 42\x7d",
    setResps := [true] }

/-- Environment of a run where the tracker rejects the POST with a
well-formed JSON error body. -/
def errWorld : World :=
  { okWorld with
    bzResp := BzResult.httpError "\x7b\"code\": 101, \"message\": \"bad\"\x7d" }

/-! ### Claim C2 -/

/-- C2 (amended): in every successful run the description field is
written exactly once, and the value written is the ticket URL
*prepended* to the card's old description (separated by a blank line),
not appended to it. -/
theorem desc_update_prepends (cf : Option String) (cid : String) (w : World)
    (h : (main cf cid w).2 = Outcome.exited 0) :
    ∃ c u, Event.cardFetched c ∈ (main cf cid w).1 ∧
      Event.bugFiled u ∈ (main cf cid w).1 ∧
      setDescWrites (main cf cid w).1 = [u ++ "\n\n" ++ c.description] := by
  rcases main_cases cf cid w with hmain | ⟨cfg, evs, ins, tks, hload, hrest⟩
  · rw [hmain] at h
    simp at h
  · obtain ⟨hevs, htr, hkey⟩ := load_config_inv _ _ _ _ _ _ _ hload
    obtain ⟨hl1, hl2, hl3, hl4⟩ := events_admin_only evs hevs
    obtain ⟨hf1, hf2, hf3, hf4⟩ := get_card_loop_counts cid w.cardResps tks
    rcases hrest with ⟨hfetch, hmain⟩ | ⟨card, hfetch, hsub⟩
    · rw [hmain] at h
      simp at h
    · obtain ⟨hfi1, hfi2, hfi3, hfi4⟩ := file_trello_bug_counts cfg.bugzilla card w.bzResp
      rcases hsub with ⟨e, hfile, hmain⟩ | ⟨nn, hfile, hmain⟩ | ⟨b, hfile, hsub2⟩
      · rw [hmain] at h
        simp at h
      · rw [hmain] at h
        simp at h
      · have hs := set_desc_loop_facts (b.url ++ "\n\n" ++ card.description) w.setResps
          (get_card_loop cid w.cardResps tks).2.2
        rcases hsub2 with ⟨hupd, hmain⟩ | ⟨hupd, hmain⟩
        · rw [hmain] at h
          simp at h
        · obtain ⟨hw, hcnt⟩ := hs.1 hupd
          refine ⟨card, b.url, ?_, ?_, ?_⟩
          · rw [hmain]
            have hmem := get_card_loop_fetched cid w.cardResps tks card hfetch
            simp [hmem]
          · rw [hmain]
            simp
          · rw [hmain]
            rw [show ((evs ++ (get_card_loop cid w.cardResps tks).1
                ++ (file_trello_bug cfg.bugzilla card w.bzResp).1
                ++ [Event.bugFiled b.url]
                ++ (set_desc_loop (b.url ++ "\n\n" ++ card.description) w.setResps
                      (get_card_loop cid w.cardResps tks).2.2).1, Outcome.exited 0) :
                List Event × Outcome).1
              = evs ++ (get_card_loop cid w.cardResps tks).1
                ++ (file_trello_bug cfg.bugzilla card w.bzResp).1
                ++ [Event.bugFiled b.url]
                ++ (set_desc_loop (b.url ++ "\n\n" ++ card.description) w.setResps
                      (get_card_loop cid w.cardResps tks).2.2).1 from rfl]
            rw [setDescWrites_append, setDescWrites_append, setDescWrites_append,
              setDescWrites_append, hl4, hf4, hfi4, hw]
            rfl

/-- Witness for `desc_update_prepends` at the concrete successful
environment `okWorld`. -/
theorem desc_update_prepends_witness :
    ∃ c u, Event.cardFetched c ∈ (main none "AbC123" okWorld).1 ∧
      Event.bugFiled u ∈ (main none "AbC123" okWorld).1 ∧
      setDescWrites (main none "AbC123" okWorld).1 = [u ++ "\n\n" ++ c.description] :=
  desc_update_prepends none "AbC123" okWorld (by rfl)

/-- C2 counterexample: in the successful run of `okWorld` the single
description written is the ticket URL followed by a blank line and the
old description `Repro steps.` — the ticket URL is *not* at the end of
the new description, refuting the claim that it is appended. -/
theorem desc_append_counterexample :
    setDescWrites (main none "AbC123" okWorld).1
      = ["https://bugzilla.mozilla.org/show_bug.cgi?id=42\n\nRepro steps."] ∧
    ("https://bugzilla.mozilla.org/show_bug.cgi?id=42").data.isSuffixOf
      ("https://bugzilla.mozilla.org/show_bug.cgi?id=42\n\nRepro steps.").data = false := by
  constructor
  · rfl
  · decide

/-! ### Claim C3 -/

/-- C3 (amended): the recognized exit codes are 0 for success and 1 for
a malformed board-card URL (rejected before `main` runs); `main` itself
can only return exit code 0: a ticket-creation HTTP error does not
produce a clean exit 1 — with a well-formed JSON error body the run
either is still pending or crashes with the uncaught `TypeError` raised
when the error code 1 returned by `file_trello_bug` is subscripted as if
it were the bug dict — and missing required config fields lead to
interactive prompting rather than an exit. -/
theorem exit_code_amended :
    (∀ arg path, arg.data.contains '/' = true → card_path path = none →
       main_card_id arg path = Dispatch.exit1) ∧
    (∀ (cf : Option String) (cid : String) (w : World) (n : Int),
       (main cf cid w).2 = Outcome.exited n → n = 0) ∧
    (∀ (cf : Option String) (cid : String) (w : World) (body : String),
       w.bzResp = BzResult.httpError body →
       ∀ n, (main cf cid w).2 ≠ Outcome.exited n) ∧
    (∀ (cf : Option String) (cid : String) (w : World) (body : String)
       (fs : List (String × JVal)) (c m : JVal),
       w.bzResp = BzResult.httpError body →
       json_loads body = some (JVal.obj fs) →
       lookupField fs "code" = some c → lookupField fs "message" = some m →
       (main cf cid w).2 = Outcome.pending ∨
       (main cf cid w).2 = Outcome.crashed PyExc.typeError) := by
  refine ⟨?_, ?_, ?_, ?_⟩
  · intro arg path h1 h2
    unfold main_card_id
    rw [h1, h2]
    rfl
  · intro cf cid w n h
    rcases main_cases cf cid w with hmain | ⟨cfg, evs, ins, tks, hload, hrest⟩
    · rw [hmain] at h
      simp at h
    · rcases hrest with ⟨hfetch, hmain⟩ | ⟨card, hfetch, hsub⟩
      · rw [hmain] at h
        simp at h
      · rcases hsub with ⟨e, hfile, hmain⟩ | ⟨nn, hfile, hmain⟩ | ⟨b, hfile, hsub2⟩
        · rw [hmain] at h
          simp at h
        · rw [hmain] at h
          simp at h
        · rcases hsub2 with ⟨hupd, hmain⟩ | ⟨hupd, hmain⟩
          · rw [hmain] at h
            simp at h
          · rw [hmain] at h
            simp at h
            omega
  · intro cf cid w body hb n
    rcases main_cases cf cid w with hmain | ⟨cfg, evs, ins, tks, hload, hrest⟩
    · simp [hmain]
    · rcases hrest with ⟨hfetch, hmain⟩ | ⟨card, hfetch, hsub⟩
      · simp [hmain]
      · rcases hsub with ⟨e, hfile, hmain⟩ | ⟨nn, hfile, hmain⟩ | ⟨b, hfile, hsub2⟩
        · simp [hmain]
        · simp [hmain]
        · rw [hb] at hfile
          exact absurd hfile (file_trello_bug_httpError_not_bug _ _ _ b)
  · intro cf cid w body fs c m hb hp hc hm2
    rcases main_cases cf cid w with hmain | ⟨cfg, evs, ins, tks, hload, hrest⟩
    · left
      rw [hmain]
    · obtain ⟨hevs, htr, key, hkey⟩ := load_config_inv _ _ _ _ _ _ _ hload
      rcases hrest with ⟨hfetch, hmain⟩ | ⟨card, hfetch, hsub⟩
      · left
        rw [hmain]
      · have herr : (file_trello_bug cfg.bugzilla card w.bzResp).2
            = Except.ok (FileBugRet.errcode 1) := by
          rw [hb]
          exact file_trello_bug_errcode cfg.bugzilla card body _
            (get_bugzilla_error_ok_of_fields body fs c m hp hc hm2) key hkey
        rcases hsub with ⟨e, hfile, hmain⟩ | ⟨nn, hfile, hmain⟩ | ⟨b, hfile, hsub2⟩
        · rw [herr] at hfile
          simp at hfile
        · right
          rw [hmain]
        · rw [herr] at hfile
          simp at hfile

/-- Environment of a run whose config is missing the required Bugzilla
API key: the user is prompted and answers (after one empty line) with
`MYKEY`; everything else succeeds. -/
def promptWorld : World :=
  { ex := fun _ => false, home := "/home/u",
    cfg0 := { bugzilla := { api_key := none, url := none, product := none, component := none,
                            version := none },
              trello := fullConfig.trello },
    inputs := ["", "MYKEY"], tokens := [],
    cardResps := [CardResp.ok demoCard],
    bzResp := BzResult.success "\x7b\"id\": 7\x7d",
    setResps := [true] }

/-- C3 counterexample: a run with a missing required config field (the
Bugzilla api_key) does not exit with code 1 as claimed: the program
prompts for the value interactively and the run completes with exit
code 0. -/
theorem exit_code_counterexample :
    promptWorld.cfg0.bugzilla.api_key = none ∧
    (main none "AbC123" promptWorld).2 = Outcome.exited 0 :=
  ⟨rfl, rfl⟩

/-- Witness for `exit_code_amended`: a rejected URL path, a successful
run (exit 0), and the tracker-error run of `errWorld`, which neither
exits normally nor cleanly returns 1 (it crashes with `TypeError`). -/
theorem exit_code_amended_witness :
    main_card_id "https://example.com/x" "/x" = Dispatch.exit1 ∧
    (0 : Int) = 0 ∧
    (main none "AbC123" errWorld).2 ≠ Outcome.exited 1 ∧
    ((main none "AbC123" errWorld).2 = Outcome.pending ∨
       (main none "AbC123" errWorld).2 = Outcome.crashed PyExc.typeError) :=
  ⟨exit_code_amended.1 "https://example.com/x" "/x" (by decide) (by rfl),
   exit_code_amended.2.1 none "AbC123" okWorld 0 (by rfl),
   exit_code_amended.2.2.1 none "AbC123" errWorld
     "\x7b\"code\": 101, \"message\": \"bad\"\x7d" rfl 1,
   exit_code_amended.2.2.2 none "AbC123" errWorld
     "\x7b\"code\": 101, \"message\": \"bad\"\x7d"
     [("code", JVal.num 101), ("message", JVal.str "bad")] (JVal.num 101) (JVal.str "bad")
     rfl (by rfl) (by rfl) (by rfl)⟩

/-! ### Claim C9 -/

/-- C9: on an authorization failure from the board service the program
regenerates an OAuth token pair, persists it to the config file, and
retries the same operation; after any number n of consecutive failures
the fetch (resp. update) loop has performed exactly n
regenerate-persist-retry rounds before succeeding, the bound n being
arbitrary; and a run whose every fetch response is an authorization
failure never terminates by itself: its outcome is pending (neither an
exit nor a crash). -/
theorem reauth_retry_unbounded :
    (∀ (card_id : String) (c : Card) (n : Nat) (toks : List (String × String)),
       n ≤ toks.length →
       get_card_loop card_id (List.replicate n CardResp.unauthorized ++ [CardResp.ok c]) toks =
         ((List.replicate n
             [Event.getCard card_id false, Event.genTokens, Event.writeConfig]).flatten
            ++ [Event.getCard card_id true, Event.cardFetched c],
          LoopRes.ok c, toks.drop n)) ∧
    (∀ (desc : String) (n : Nat) (toks : List (String × String)),
       n ≤ toks.length →
       set_desc_loop desc (List.replicate n false ++ [true]) toks =
         ((List.replicate n
             [Event.setDesc desc false, Event.genTokens, Event.writeConfig]).flatten
            ++ [Event.setDesc desc true],
          LoopRes.ok (), toks.drop n)) ∧
    (∀ (cf : Option String) (cid : String) (w : World),
       (∀ r ∈ w.cardResps, r = CardResp.unauthorized) →
       (main cf cid w).2 = Outcome.pending) :=
  ⟨get_card_retry_trace, set_desc_retry_trace, main_pending_of_unauthorized⟩

/-- Environment whose board service never accepts the credentials: both
fetch attempts raise `Unauthorized`. -/
def unauthWorld : World :=
  { okWorld with
    cardResps := List.replicate 2 CardResp.unauthorized,
    tokens := [("t1", "s1"), ("t2", "s2"), ("t3", "s3")] }

/-- Witness for `reauth_retry_unbounded` at two consecutive fetch
failures, one update failure, and the never-authorized environment. -/
theorem reauth_retry_unbounded_witness :
    get_card_loop "X" (List.replicate 2 CardResp.unauthorized ++ [CardResp.ok demoCard])
        [("t1", "s1"), ("t2", "s2"), ("t3", "s3")] =
      ((List.replicate 2
          [Event.getCard "X" false, Event.genTokens, Event.writeConfig]).flatten
         ++ [Event.getCard "X" true, Event.cardFetched demoCard],
       LoopRes.ok demoCard, [("t1", "s1"), ("t2", "s2"), ("t3", "s3")].drop 2) ∧
    set_desc_loop "D" (List.replicate 1 false ++ [true]) [("t1", "s1")] =
      ((List.replicate 1
          [Event.setDesc "D" false, Event.genTokens, Event.writeConfig]).flatten
         ++ [Event.setDesc "D" true],
       LoopRes.ok (), [("t1", "s1")].drop 1) ∧
    (main none "X" unauthWorld).2 = Outcome.pending :=
  ⟨reauth_retry_unbounded.1 "X" demoCard 2 [("t1", "s1"), ("t2", "s2"), ("t3", "s3")]
     (by decide),
   reauth_retry_unbounded.2.1 "D" 1 [("t1", "s1")] (by decide),
   reauth_retry_unbounded.2.2 none "X" unauthWorld
     (fun r hr => List.eq_of_mem_replicate hr)⟩

/-- Witness for `card_update_iff_ticket_success`: in the concrete
tracker-error run of `errWorld` no update attempt happens, and in the
concrete successful run of `okWorld` the update-iff-success equivalence
holds. -/
theorem card_update_iff_ticket_success_witness :
    (main none "AbC123" errWorld).1.countP isSetDescAttempt = 0 ∧
    ((main none "AbC123" okWorld).1.countP isSetDescOk = 1 ↔
       (main none "AbC123" okWorld).1.countP isBugFiled = 1) :=
  ⟨(card_update_iff_ticket_success none "AbC123" errWorld).1
     "\x7b\"code\": 101, \"message\": \"bad\"\x7d" rfl,
   (card_update_iff_ticket_success none "AbC123" okWorld).2.2.2 (by decide)⟩

end Trellobug
